import Mathlib

/-!
# Loqa device service: command resolution and state transitions

A shallow embedding of `src/cmd/main.go`: the device registry (`map[string]*Device`),
`findDevice`, `executeCommand`, the three command handlers and `sendErrorResponse`,
followed by theorems about them.

Modelling conventions.

* The Go map `ds.devices` is an association list of `(key, device)` entries with
  pairwise distinct keys (`NodupKeys`).  A Go `range` over a map visits the entries
  in an order the language leaves unspecified, so the list a function receives is
  the registry *in the order this call's range loop visits it*; another iteration
  order of the same registry is a permutation of the list.
* A `*Device` is represented by the entry it points into: `findDevice` returns the
  key together with the device value, and a write through the pointer is the
  store `mapSet` at that key.  (Every entry of the seeded map owns its own
  `Device`, and no code adds or removes entries.)
* `fmt.Sprintf` with `%s` verbs only is string concatenation.
* The NATS client is represented by the log of responses handed to
  `PublishDeviceResponse`; `time.Now().UnixNano()` is a parameter `now`.
-/

namespace LoqaDevice

/-! ## Data model -/

/-- Device represents a smart home device (`type Device struct`, main.go 38-46).
The Go field `Type` is spelled `Type_` here. -/
structure Device where
  ID : String
  Type_ : String
  Name : String
  Location : String
  State : String
  Online : Bool
deriving DecidableEq

/-- The registry `map[string]*Device` (main.go 35), as the list of its entries in the
order a range loop visits them. -/
abbrev Devices := List (String × Device)

/-- Keys of a Go map are pairwise distinct. -/
def NodupKeys (devices : Devices) : Prop := (devices.map Prod.fst).Nodup

instance (devices : Devices) : Decidable (NodupKeys devices) := by
  unfold NodupKeys; infer_instance

/-- Map index expression `devices[key]` in its two-valued form
(`device, exists := ds.devices[deviceID]`): `none` when the key is absent. -/
def mapGet : Devices → String → Option Device
  | [], _ => none
  | (k, device) :: rest, key => if k = key then some device else mapGet rest key

/-- Store through the pointer held by the entry under `key`: the entry's device
becomes `device`, every other entry is untouched. -/
def mapSet : Devices → String → Device → Devices
  | [], _, _ => []
  | (k, d) :: rest, key, device =>
    if k = key then (k, device) :: mapSet rest key device
    else (k, d) :: mapSet rest key device

/-- Modelled from the spec: the command event of the `messaging` package, which is not
among the sources; the fields are the ones main.go reads (`CommandRequest`:
correlation id, device type, location, device id, action). -/
structure DeviceCommandEvent where
  RequestID : String
  DeviceType : String
  DeviceID : String
  Location : String
  Action : String
deriving DecidableEq

/-- Modelled from the spec: the response event of the `messaging` package, which is not
among the sources; the fields are the ones main.go fills in (`CommandResponse`). -/
structure DeviceResponseEvent where
  RequestID : String
  DeviceType : String
  DeviceID : String
  Success : Bool
  Message : String
  Timestamp : Int
deriving DecidableEq

/-- DeviceService simulates smart home device control (main.go 32-36).  The field
`natsService` holds the responses published so far, oldest first. -/
structure DeviceService where
  natsService : List DeviceResponseEvent
  devices : Devices
deriving DecidableEq

/-- Modelled from the spec: `natsService.PublishDeviceResponse` of the `messaging`
package, which is not among the sources: a fire-and-forget publish of one response
(a failure is only logged by the callers). -/
def PublishDeviceResponse (ds : DeviceService) (response : DeviceResponseEvent) :
    DeviceService :=
  { ds with natsService := ds.natsService ++ [response] }

/-! ## The seeded registry -/

/-- The mock devices of `NewDeviceService` (main.go 88-121), in source order. -/
def seededDevices : Devices :=
  [ ("living-room-lights",
      { ID := "living-room-lights", Type_ := "lights", Name := "Living Room Lights",
        Location := "living room", State := "off", Online := true }),
    ("bedroom-lights",
      { ID := "bedroom-lights", Type_ := "lights", Name := "Bedroom Lights",
        Location := "bedroom", State := "off", Online := true }),
    ("kitchen-lights",
      { ID := "kitchen-lights", Type_ := "lights", Name := "Kitchen Lights",
        Location := "kitchen", State := "off", Online := true }),
    ("living-room-audio",
      { ID := "living-room-audio", Type_ := "audio", Name := "Living Room Audio",
        Location := "living room", State := "off", Online := true }) ]

/-- NewDeviceService creates a new device service (main.go 80-127).  The argument is
the outcome of `messaging.NewNATSService()`: an error is passed on, a client is
paired with the seeded registry. -/
def NewDeviceService (nats : Except String (List DeviceResponseEvent)) :
    Except String DeviceService :=
  match nats with
  | .error err => .error err
  | .ok natsService => .ok { natsService := natsService, devices := seededDevices }

/-! ## Resolution -/

/-- The range loop of `findDevice` (main.go 236-242): the first entry, in the order
visited, whose type matches and whose location matches when one is asked for. -/
def rangeFind (deviceType location : String) : Devices → Option (String × Device)
  | [] => none
  | (k, device) :: rest =>
    if device.Type_ = deviceType then
      if location = "" ∨ device.Location = location then some (k, device)
      else rangeFind deviceType location rest
    else rangeFind deviceType location rest

/-- findDevice finds a device by type, location, or ID (main.go 226-245).  When the
id lookup does not return, control falls out of the `if` into the range loop. -/
def findDevice (devices : Devices) (deviceType location deviceID : String) :
    Option (String × Device) :=
  if deviceID ≠ "" then
    match mapGet devices deviceID with
    | some device =>
      if device.Type_ = deviceType then some (deviceID, device)
      else rangeFind deviceType location devices
    | none => rangeFind deviceType location devices
  else rangeFind deviceType location devices

/-- The id branch of `findDevice` on its own (main.go 229-233), used to state lemmas
about `findDevice`: the entry under a non-empty
`deviceID` when its type is the requested one. -/
def idHit (devices : Devices) (deviceType deviceID : String) : Option (String × Device) :=
  if deviceID ≠ "" then
    match mapGet devices deviceID with
    | some device => if device.Type_ = deviceType then some (deviceID, device) else none
    | none => none
  else none

/-! ## State transitions -/

/-- Outcome of `executeCommand`: the two values it returns and the device as the call
leaves it. -/
structure ExecResult where
  success : Bool
  message : String
  device : Device
deriving DecidableEq

/-- executeCommand executes a command on a device (main.go 247-292). -/
def executeCommand (device : Device) (action : String) : ExecResult :=
  if device.Online = false then
    ⟨false, device.Name ++ " is offline", device⟩
  else if action = "on" then
    if device.State = "on" then ⟨true, device.Name ++ " is already on", device⟩
    else ⟨true, device.Name ++ " turned on", { device with State := "on" }⟩
  else if action = "off" then
    if device.State = "off" then ⟨true, device.Name ++ " is already off", device⟩
    else ⟨true, device.Name ++ " turned off", { device with State := "off" }⟩
  else if action = "play" then
    if device.Type_ = "audio" then
      ⟨true, device.Name ++ " started playing", { device with State := "playing" }⟩
    else ⟨false, "Cannot play on " ++ device.Name, device⟩
  else if action = "stop" then
    if device.Type_ = "audio" then
      ⟨true, device.Name ++ " stopped", { device with State := "stopped" }⟩
    else ⟨false, "Cannot stop " ++ device.Name, device⟩
  else if action = "pause" then
    if device.Type_ = "audio" then
      ⟨true, device.Name ++ " paused", { device with State := "paused" }⟩
    else ⟨false, "Cannot pause " ++ device.Name, device⟩
  else ⟨false, "Unknown action: " ++ action, device⟩

/-! ## Handlers -/

/-- sendErrorResponse sends an error response (main.go 294-308). -/
def sendErrorResponse (ds : DeviceService) (event : DeviceCommandEvent)
    (message : String) (now : Int) : DeviceService :=
  PublishDeviceResponse ds
    { RequestID := event.RequestID, DeviceType := event.DeviceType,
      DeviceID := event.DeviceID, Success := false, Message := message,
      Timestamp := now }

/-- handleLightCommand handles light device commands (main.go 157-185). -/
def handleLightCommand (ds : DeviceService) (event : DeviceCommandEvent) (now : Int) :
    DeviceService :=
  match findDevice ds.devices "lights" event.Location event.DeviceID with
  | none => sendErrorResponse ds event "Light not found" now
  | some (key, device) =>
    let r := executeCommand device event.Action
    PublishDeviceResponse { ds with devices := mapSet ds.devices key r.device }
      { RequestID := event.RequestID, DeviceType := "lights", DeviceID := r.device.ID,
        Success := r.success, Message := r.message, Timestamp := now }

/-- handleAudioCommand handles audio device commands (main.go 187-215). -/
def handleAudioCommand (ds : DeviceService) (event : DeviceCommandEvent) (now : Int) :
    DeviceService :=
  match findDevice ds.devices "audio" event.Location event.DeviceID with
  | none => sendErrorResponse ds event "Audio device not found" now
  | some (key, device) =>
    let r := executeCommand device event.Action
    PublishDeviceResponse { ds with devices := mapSet ds.devices key r.device }
      { RequestID := event.RequestID, DeviceType := "audio", DeviceID := r.device.ID,
        Success := r.success, Message := r.message, Timestamp := now }

/-- handleGenericCommand handles generic device commands (main.go 217-224): it only
logs. -/
def handleGenericCommand (ds : DeviceService) (_event : DeviceCommandEvent) :
    DeviceService :=
  ds

/-- The registry entry that satisfies a request's type and location constraints
(the test of the range loop, main.go 237-238). -/
def Matches (deviceType location : String) (e : String × Device) : Prop :=
  e.2.Type_ = deviceType ∧ (location ≠ "" → e.2.Location = location)

instance (deviceType location : String) (e : String × Device) :
    Decidable (Matches deviceType location e) := by
  unfold Matches; infer_instance

/-! ## Runs of the service -/

/-- The service as `NewDeviceService` leaves it when the NATS client was created and
nothing has been published yet. -/
def seededService : DeviceService := { natsService := [], devices := seededDevices }

/-- One handler invocation (the three subscriptions of `Start`, main.go 133-149).  The
handlers that resolve a device range over the map, so each such invocation comes with
the order `order` in which its range loop visits the registry. -/
inductive Step : DeviceService → DeviceService → Prop
  | light (ds : DeviceService) (order : Devices) (hp : order.Perm ds.devices)
      (event : DeviceCommandEvent) (now : Int) :
      Step ds (handleLightCommand ⟨ds.natsService, order⟩ event now)
  | audio (ds : DeviceService) (order : Devices) (hp : order.Perm ds.devices)
      (event : DeviceCommandEvent) (now : Int) :
      Step ds (handleAudioCommand ⟨ds.natsService, order⟩ event now)
  | generic (ds : DeviceService) (event : DeviceCommandEvent) :
      Step ds (handleGenericCommand ds event)

/-- The states reachable from the seeded service by finitely many handler
invocations. -/
inductive Reachable : DeviceService → Prop
  | init : Reachable seededService
  | step {ds ds2 : DeviceService} (hr : Reachable ds) (hs : Step ds ds2) : Reachable ds2

/-- The legal-state set of a device type, as the spec gives it (section 4.3):
on/off for every type, and the three transport states for "audio" in addition. -/
def legalStates (deviceType : String) : List String :=
  if deviceType = "audio" then ["on", "off", "playing", "stopped", "paused"]
  else ["on", "off"]

/-- An entry that descends from a seeded entry: same key, and every field but `State`
as seeded, with `State` legal for the type. -/
def FromSeed (e : String × Device) : Prop :=
  ∃ d0 : Device, (e.1, d0) ∈ seededDevices ∧ e.2.ID = d0.ID ∧ e.2.Type_ = d0.Type_ ∧
    e.2.Name = d0.Name ∧ e.2.Location = d0.Location ∧ e.2.Online = d0.Online ∧
    e.2.State ∈ legalStates e.2.Type_

/-- The common shape of `handleLightCommand` and `handleAudioCommand` (main.go 157-215),
which differ only in the type string and the not-found text; used to state lemmas about
both at once. -/
def handleTyped (deviceType notFound : String) (ds : DeviceService)
    (event : DeviceCommandEvent) (now : Int) : DeviceService :=
  match findDevice ds.devices deviceType event.Location event.DeviceID with
  | none => sendErrorResponse ds event notFound now
  | some (key, device) =>
    let r := executeCommand device event.Action
    PublishDeviceResponse { ds with devices := mapSet ds.devices key r.device }
      { RequestID := event.RequestID, DeviceType := deviceType, DeviceID := r.device.ID,
        Success := r.success, Message := r.message, Timestamp := now }

/-- Registry invariant of a run: the keys are the seeded keys and every entry descends
from the seeded entry under its key. -/
def DevInv (devices : Devices) : Prop :=
  (devices.map Prod.fst).Perm (seededDevices.map Prod.fst) ∧ ∀ e ∈ devices, FromSeed e

/-- Log invariant of a run: no published message is "<Name> is offline" for the name of
a seeded device. -/
def LogInv (log : List DeviceResponseEvent) : Prop :=
  ∀ resp ∈ log, ∀ e ∈ seededDevices, resp.Message ≠ e.2.Name ++ " is offline"

/-- A one-step run used as a concrete reachable state: the seeded service after a
"lights"/"kitchen"/"on" command handled in source order. -/
def afterKitchenOn : DeviceService :=
  handleLightCommand ⟨seededService.natsService, seededDevices⟩
    ⟨"r1", "lights", "", "kitchen", "on"⟩ 0

/-- Frame of a typed handler between the service before (`ds`) and after (`ds2`): the
keys are kept, all entries but the one under a single key are kept, an entry that
differs had and has type `deviceType` and its `ID` is the one in the response just
published, and entries of another type are kept. -/
def ChangesOnly (deviceType : String) (ds ds2 : DeviceService) : Prop :=
  ds2.devices.map Prod.fst = ds.devices.map Prod.fst ∧
  (∃ key : String, ∀ k : String, k ≠ key →
    mapGet ds2.devices k = mapGet ds.devices k) ∧
  (∀ (k : String) (d d2 : Device), mapGet ds.devices k = some d →
    mapGet ds2.devices k = some d2 → d2 ≠ d →
      d.Type_ = deviceType ∧ d2.Type_ = deviceType ∧
      ∃ response : DeviceResponseEvent,
        ds2.natsService = ds.natsService ++ [response] ∧ response.DeviceID = d2.ID) ∧
  (∀ (k : String) (d : Device), mapGet ds.devices k = some d → d.Type_ ≠ deviceType →
    mapGet ds2.devices k = some d)

/-! ## Lemmas on the registry operations -/

theorem mapGet_mem {devices : Devices} {key : String} {device : Device}
    (h : mapGet devices key = some device) : (key, device) ∈ devices := by
  induction devices with
  | nil => simp [mapGet] at h
  | cons e rest ih =>
    obtain ⟨k, d⟩ := e
    by_cases hk : k = key
    · simp [mapGet, hk] at h
      simp [hk, h]
    · simp [mapGet, hk] at h
      exact List.mem_cons_of_mem _ (ih h)

theorem mapGet_of_mem {devices : Devices} {key : String} {device : Device}
    (nd : NodupKeys devices) (h : (key, device) ∈ devices) :
    mapGet devices key = some device := by
  induction devices with
  | nil => simp at h
  | cons e rest ih =>
    obtain ⟨k, d⟩ := e
    have nd2 : k ∉ rest.map Prod.fst ∧ NodupKeys rest := by
      simpa [NodupKeys] using nd
    rcases List.mem_cons.1 h with heq | hmem
    · cases heq
      simp [mapGet]
    · have hne : k ≠ key := by
        intro hk
        exact nd2.1 (hk ▸ List.mem_map_of_mem Prod.fst hmem)
      simp [mapGet, hne, ih nd2.2 hmem]

theorem nodupKeys_perm {r1 r2 : Devices} (hp : r2.Perm r1) (nd : NodupKeys r1) :
    NodupKeys r2 :=
  ((hp.map Prod.fst).nodup_iff).2 nd

theorem mapGet_perm {r1 r2 : Devices} (hp : r2.Perm r1) (nd : NodupKeys r1)
    (key : String) : mapGet r2 key = mapGet r1 key := by
  cases h1 : mapGet r1 key with
  | some d =>
    exact mapGet_of_mem (nodupKeys_perm hp nd) (hp.mem_iff.2 (mapGet_mem h1))
  | none =>
    cases h2 : mapGet r2 key with
    | none => rfl
    | some d =>
      have := mapGet_of_mem nd (hp.mem_iff.1 (mapGet_mem h2))
      simp [h1] at this

theorem rangeFind_some {deviceType location : String} {devices : Devices}
    {e : String × Device} (h : rangeFind deviceType location devices = some e) :
    e ∈ devices ∧ Matches deviceType location e := by
  induction devices with
  | nil => simp [rangeFind] at h
  | cons x rest ih =>
    obtain ⟨k, d⟩ := x
    by_cases ht : d.Type_ = deviceType
    · by_cases hl : location = "" ∨ d.Location = location
      · simp [rangeFind, ht, hl] at h
        subst h
        refine ⟨List.mem_cons_self _ _, ht, ?_⟩
        intro hne
        rcases hl with hl | hl
        · exact absurd hl hne
        · exact hl
      · simp only [rangeFind, ht, hl, if_true, if_false] at h
        exact ⟨List.mem_cons_of_mem _ (ih h).1, (ih h).2⟩
    · simp only [rangeFind, ht, if_false] at h
      exact ⟨List.mem_cons_of_mem _ (ih h).1, (ih h).2⟩

theorem rangeFind_eq_none {deviceType location : String} {devices : Devices} :
    rangeFind deviceType location devices = none ↔
      ∀ e ∈ devices, ¬ Matches deviceType location e := by
  induction devices with
  | nil => simp [rangeFind]
  | cons x rest ih =>
    obtain ⟨k, d⟩ := x
    by_cases ht : d.Type_ = deviceType
    · by_cases hl : location = "" ∨ d.Location = location
      · simp only [rangeFind, ht, hl, if_true]
        constructor
        · intro h; cases h
        · intro h
          refine absurd ⟨ht, ?_⟩ (h (k, d) (List.mem_cons_self _ _))
          intro hne
          rcases hl with hl | hl
          · exact absurd hl hne
          · exact hl
      · simp only [rangeFind, ht, hl, if_true, if_false, ih, List.forall_mem_cons]
        constructor
        · intro h
          refine ⟨?_, h⟩
          rintro ⟨-, hm⟩
          by_cases hne : location = ""
          · exact hl (Or.inl hne)
          · exact hl (Or.inr (hm hne))
        · intro h; exact h.2
    · simp only [rangeFind, ht, if_false, ih, List.forall_mem_cons]
      constructor
      · intro h
        exact ⟨fun hm => ht hm.1, h⟩
      · intro h; exact h.2

theorem findDevice_empty_id (devices : Devices) (deviceType location : String) :
    findDevice devices deviceType location "" = rangeFind deviceType location devices := by
  simp [findDevice]

theorem seededDevices_nodupKeys : NodupKeys seededDevices := by decide

theorem rangeFind_none_perm {r1 r2 : Devices} (hp : r2.Perm r1)
    (deviceType location : String) :
    rangeFind deviceType location r2 = none ↔ rangeFind deviceType location r1 = none := by
  rw [rangeFind_eq_none, rangeFind_eq_none]
  constructor
  · intro h e he; exact h e (hp.mem_iff.2 he)
  · intro h e he; exact h e (hp.mem_iff.1 he)

theorem findDevice_eq_idHit_orElse (devices : Devices)
    (deviceType location deviceID : String) :
    findDevice devices deviceType location deviceID =
      match idHit devices deviceType deviceID with
      | some e => some e
      | none => rangeFind deviceType location devices := by
  unfold findDevice idHit
  by_cases hid : deviceID = ""
  · simp [hid]
  · cases hg : mapGet devices deviceID with
    | none => simp [hid]
    | some d =>
      by_cases ht : d.Type_ = deviceType <;> simp [hid, ht]

theorem idHit_perm {r1 r2 : Devices} (hp : r2.Perm r1) (nd : NodupKeys r1)
    (deviceType deviceID : String) :
    idHit r2 deviceType deviceID = idHit r1 deviceType deviceID := by
  unfold idHit
  rw [mapGet_perm hp nd]

theorem idHit_some {devices : Devices} {deviceType deviceID : String}
    {e : String × Device} (h : idHit devices deviceType deviceID = some e) :
    deviceID ≠ "" ∧ e.1 = deviceID ∧ mapGet devices deviceID = some e.2 ∧
      e.2.Type_ = deviceType := by
  unfold idHit at h
  by_cases hid : deviceID = ""
  · simp [hid] at h
  · cases hg : mapGet devices deviceID with
    | none => simp [hid, hg] at h
    | some d =>
      by_cases ht : d.Type_ = deviceType
      · simp [hid, hg, ht] at h
        subst h
        exact ⟨hid, rfl, rfl, ht⟩
      · simp [hid, hg, ht] at h

theorem mapSet_keys (devices : Devices) (key : String) (device : Device) :
    (mapSet devices key device).map Prod.fst = devices.map Prod.fst := by
  induction devices with
  | nil => rfl
  | cons e rest ih =>
    obtain ⟨k, d⟩ := e
    by_cases hk : k = key <;> simp [mapSet, hk, ih]

theorem mem_mapSet {devices : Devices} {key : String} {device : Device}
    {e : String × Device} (h : e ∈ mapSet devices key device) :
    (e ∈ devices ∧ e.1 ≠ key) ∨ e = (key, device) := by
  induction devices with
  | nil => simp [mapSet] at h
  | cons x rest ih =>
    obtain ⟨k, d⟩ := x
    by_cases hk : k = key
    · simp only [mapSet, hk, if_true, List.mem_cons] at h
      rcases h with h | h
      · exact Or.inr h
      · rcases ih h with h2 | h2
        · exact Or.inl ⟨List.mem_cons_of_mem _ h2.1, h2.2⟩
        · exact Or.inr h2
    · simp only [mapSet, hk, if_false, List.mem_cons] at h
      rcases h with h | h
      · subst h
        exact Or.inl ⟨List.mem_cons_self _ _, hk⟩
      · rcases ih h with h2 | h2
        · exact Or.inl ⟨List.mem_cons_of_mem _ h2.1, h2.2⟩
        · exact Or.inr h2

theorem mapGet_mapSet_ne (devices : Devices) {key k2 : String} (device : Device)
    (hne : k2 ≠ key) : mapGet (mapSet devices key device) k2 = mapGet devices k2 := by
  induction devices with
  | nil => rfl
  | cons x rest ih =>
    obtain ⟨k, d⟩ := x
    by_cases hk : k = key
    · have hk2 : ¬ key = k2 := fun h => hne h.symm
      simp [mapSet, mapGet, hk, hk2, ih]
    · by_cases hkk : k = k2
      · subst hkk
        simp [mapSet, mapGet, hk]
      · simp [mapSet, mapGet, hk, hkk, ih]

theorem mapGet_mapSet_self {devices : Devices} {key : String} {d0 : Device}
    (device : Device) (h : mapGet devices key = some d0) :
    mapGet (mapSet devices key device) key = some device := by
  induction devices with
  | nil => simp [mapGet] at h
  | cons x rest ih =>
    obtain ⟨k, d⟩ := x
    by_cases hk : k = key
    · simp [mapSet, mapGet, hk]
    · simp only [mapGet, hk, if_false] at h
      simp [mapSet, mapGet, hk, ih h]

theorem findDevice_some {devices : Devices} {deviceType location deviceID : String}
    {e : String × Device}
    (h : findDevice devices deviceType location deviceID = some e) :
    e ∈ devices ∧ e.2.Type_ = deviceType := by
  rw [findDevice_eq_idHit_orElse] at h
  cases hh : idHit devices deviceType deviceID with
  | some e0 =>
    simp only [hh, Option.some.injEq] at h
    subst h
    obtain ⟨-, hk, hg, ht⟩ := idHit_some hh
    have := mapGet_mem hg
    rw [← hk] at this
    exact ⟨this, ht⟩
  | none =>
    simp only [hh] at h
    exact ⟨(rangeFind_some h).1, (rangeFind_some h).2.1⟩

theorem executeCommand_fields (device : Device) (action : String) :
    (executeCommand device action).device.ID = device.ID ∧
      (executeCommand device action).device.Type_ = device.Type_ ∧
      (executeCommand device action).device.Name = device.Name ∧
      (executeCommand device action).device.Location = device.Location ∧
      (executeCommand device action).device.Online = device.Online := by
  unfold executeCommand
  split_ifs <;> simp

theorem executeCommand_legal (device : Device) (action : String)
    (h : device.State ∈ legalStates device.Type_) :
    (executeCommand device action).device.State ∈ legalStates device.Type_ := by
  have hon : "on" ∈ legalStates device.Type_ := by
    unfold legalStates; split_ifs <;> simp
  have hoff : "off" ∈ legalStates device.Type_ := by
    unfold legalStates; split_ifs <;> simp
  unfold executeCommand
  split_ifs <;> simp_all [legalStates]

theorem unknown_action_message_ne (action : String) {e : String × Device}
    (he : e ∈ seededDevices) :
    "Unknown action: " ++ action ≠ e.2.Name ++ " is offline" := by
  intro h
  have h3 : ("Unknown action: " ++ action).data.head? =
      (e.2.Name ++ " is offline").data.head? := by rw [h]
  rw [String.data_append] at h3
  have h4 : ("Unknown action: ".data ++ action.data).head? = some 'U' := rfl
  rw [h4] at h3
  simp only [seededDevices, List.mem_cons, List.mem_singleton, List.mem_nil_iff,
    or_false] at he
  rcases he with he | he | he | he <;> subst he <;> exact absurd h3 (by decide)

theorem executeCommand_message_not_offline (device : Device) (action : String)
    {e0 e : String × Device} (h0 : e0 ∈ seededDevices) (hname : device.Name = e0.2.Name)
    (hon : device.Online = true) (he : e ∈ seededDevices) :
    (executeCommand device action).message ≠ e.2.Name ++ " is offline" := by
  have hunk := unknown_action_message_ne action he
  have hoff : ¬ device.Online = false := by simp [hon]
  unfold executeCommand
  rw [if_neg hoff, hname]
  simp only [seededDevices, List.mem_cons, List.mem_singleton, List.mem_nil_iff,
    or_false] at h0 he
  split_ifs
  all_goals dsimp only
  all_goals first
    | exact hunk
    | (rcases h0 with h0 | h0 | h0 | h0 <;> subst h0 <;>
        rcases he with he | he | he | he <;> subst he <;> decide)

theorem not_found_message_ne {e : String × Device} (he : e ∈ seededDevices) :
    "Light not found" ≠ e.2.Name ++ " is offline" ∧
      "Audio device not found" ≠ e.2.Name ++ " is offline" := by
  simp only [seededDevices, List.mem_cons, List.mem_singleton, List.mem_nil_iff,
    or_false] at he
  rcases he with he | he | he | he <;> subst he <;> decide

theorem handleLightCommand_eq (ds : DeviceService) (event : DeviceCommandEvent)
    (now : Int) :
    handleLightCommand ds event now = handleTyped "lights" "Light not found" ds event now :=
  rfl

theorem handleAudioCommand_eq (ds : DeviceService) (event : DeviceCommandEvent)
    (now : Int) :
    handleAudioCommand ds event now =
      handleTyped "audio" "Audio device not found" ds event now :=
  rfl

theorem handleTyped_none {deviceType notFound : String} {ds : DeviceService}
    {event : DeviceCommandEvent} (now : Int)
    (h : findDevice ds.devices deviceType event.Location event.DeviceID = none) :
    handleTyped deviceType notFound ds event now =
      ⟨ds.natsService ++
        [⟨event.RequestID, event.DeviceType, event.DeviceID, false, notFound, now⟩],
        ds.devices⟩ := by
  simp [handleTyped, h, sendErrorResponse, PublishDeviceResponse]

theorem handleTyped_some {deviceType notFound : String} {ds : DeviceService}
    {event : DeviceCommandEvent} (now : Int) {key : String} {device : Device}
    (h : findDevice ds.devices deviceType event.Location event.DeviceID =
      some (key, device)) :
    handleTyped deviceType notFound ds event now =
      ⟨ds.natsService ++
        [⟨event.RequestID, deviceType, (executeCommand device event.Action).device.ID,
          (executeCommand device event.Action).success,
          (executeCommand device event.Action).message, now⟩],
        mapSet ds.devices key (executeCommand device event.Action).device⟩ := by
  simp [handleTyped, h, PublishDeviceResponse]

theorem seeded_online {e : String × Device} (he : e ∈ seededDevices) :
    e.2.Online = true := by
  simp only [seededDevices, List.mem_cons, List.mem_singleton, List.mem_nil_iff,
    or_false] at he
  rcases he with he | he | he | he <;> subst he <;> rfl

theorem devInv_seeded : DevInv seededDevices := by
  refine ⟨List.Perm.refl _, ?_⟩
  intro e he
  refine ⟨e.2, he, rfl, rfl, rfl, rfl, rfl, ?_⟩
  simp only [seededDevices, List.mem_cons, List.mem_singleton, List.mem_nil_iff,
    or_false] at he
  rcases he with he | he | he | he <;> subst he <;> decide

theorem devInv_perm {devices order : Devices} (hp : order.Perm devices)
    (h : DevInv devices) : DevInv order :=
  ⟨(hp.map Prod.fst).trans h.1, fun e he => h.2 e (hp.mem_iff.1 he)⟩

theorem devInv_mapSet {devices : Devices} {key : String} {device : Device}
    (action : String) (h : DevInv devices) (hmem : (key, device) ∈ devices) :
    DevInv (mapSet devices key (executeCommand device action).device) := by
  refine ⟨by rw [mapSet_keys]; exact h.1, ?_⟩
  intro e he
  rcases mem_mapSet he with h1 | h1
  · exact h.2 e h1.1
  · subst h1
    obtain ⟨d0, hs, hid, ht, hn, hl, ho, hst⟩ := h.2 _ hmem
    obtain ⟨fid, ft, fn, fl, fo⟩ := executeCommand_fields device action
    refine ⟨d0, hs, ?_, ?_, ?_, ?_, ?_, ?_⟩
    · exact fid.trans hid
    · exact ft.trans ht
    · exact fn.trans hn
    · exact fl.trans hl
    · exact fo.trans ho
    · show (executeCommand device action).device.State ∈
        legalStates (executeCommand device action).device.Type_
      rw [ft]
      exact executeCommand_legal device action hst

theorem handleTyped_inv (deviceType notFound : String)
    (hmsg : ∀ e ∈ seededDevices, notFound ≠ e.2.Name ++ " is offline")
    (ds : DeviceService) (event : DeviceCommandEvent) (now : Int)
    (hd : DevInv ds.devices) (hl : LogInv ds.natsService) :
    DevInv (handleTyped deviceType notFound ds event now).devices ∧
      LogInv (handleTyped deviceType notFound ds event now).natsService := by
  cases hf : findDevice ds.devices deviceType event.Location event.DeviceID with
  | none =>
    rw [handleTyped_none now hf]
    refine ⟨hd, ?_⟩
    intro resp hr e he
    rcases List.mem_append.1 hr with h1 | h1
    · exact hl resp h1 e he
    · simp only [List.mem_singleton] at h1
      subst h1
      exact hmsg e he
  | some x =>
    obtain ⟨key, device⟩ := x
    rw [handleTyped_some now hf]
    have hmem := (findDevice_some hf).1
    refine ⟨devInv_mapSet event.Action hd hmem, ?_⟩
    intro resp hr e he
    rcases List.mem_append.1 hr with h1 | h1
    · exact hl resp h1 e he
    · simp only [List.mem_singleton] at h1
      subst h1
      obtain ⟨d0, hs, -, -, hn, -, ho, -⟩ := hd.2 _ hmem
      have hon : device.Online = true := ho.trans (seeded_online hs)
      exact executeCommand_message_not_offline device event.Action hs hn hon he

theorem reachable_inv {ds : DeviceService} (h : Reachable ds) :
    DevInv ds.devices ∧ LogInv ds.natsService := by
  induction h with
  | init =>
    refine ⟨devInv_seeded, ?_⟩
    intro resp hr
    simp [seededService] at hr
  | @step ds ds2 hr hs ih =>
    cases hs with
    | light order hp event now =>
      rw [handleLightCommand_eq]
      exact handleTyped_inv "lights" "Light not found"
        (fun e he => (not_found_message_ne he).1) ⟨ds.natsService, order⟩ event now
        (devInv_perm hp ih.1) ih.2
    | audio order hp event now =>
      rw [handleAudioCommand_eq]
      exact handleTyped_inv "audio" "Audio device not found"
        (fun e he => (not_found_message_ne he).2) ⟨ds.natsService, order⟩ event now
        (devInv_perm hp ih.1) ih.2
    | generic event => exact ih

theorem afterKitchenOn_reachable : Reachable afterKitchenOn :=
  Reachable.step Reachable.init
    (Step.light seededService seededDevices (List.Perm.refl _)
      ⟨"r1", "lights", "", "kitchen", "on"⟩ 0)

theorem seeded_no_garage_light : ∀ e ∈ seededDevices, ¬ Matches "lights" "garage" e := by
  decide

theorem handleTyped_changesOnly (deviceType notFound : String) (ds : DeviceService)
    (event : DeviceCommandEvent) (now : Int) (nd : NodupKeys ds.devices) :
    ChangesOnly deviceType ds (handleTyped deviceType notFound ds event now) := by
  cases hf : findDevice ds.devices deviceType event.Location event.DeviceID with
  | none =>
    rw [handleTyped_none now hf]
    refine ⟨rfl, ⟨"", fun _ _ => rfl⟩, ?_, fun _ _ h _ => h⟩
    intro k d d2 h1 h2 hne
    simp only [h1, Option.some.injEq] at h2
    exact absurd h2.symm hne
  | some x =>
    obtain ⟨key, device⟩ := x
    rw [handleTyped_some now hf]
    obtain ⟨hmem, ht⟩ := findDevice_some hf
    have hget : mapGet ds.devices key = some device := mapGet_of_mem nd hmem
    have hnew := mapGet_mapSet_self (executeCommand device event.Action).device hget
    refine ⟨mapSet_keys _ _ _, ⟨key, fun k hk => mapGet_mapSet_ne _ _ hk⟩, ?_, ?_⟩
    · intro k d d2 h1 h2 hne
      by_cases hk : k = key
      · subst hk
        simp only [hget, Option.some.injEq] at h1
        simp only [hnew, Option.some.injEq] at h2
        subst h1 h2
        exact ⟨ht, (executeCommand_fields _ _).2.1.trans ht, _, rfl, rfl⟩
      · simp only [mapGet_mapSet_ne _ _ hk, h1, Option.some.injEq] at h2
        exact absurd h2.symm hne
    · intro k d h1 hnt
      by_cases hk : k = key
      · subst hk
        simp only [hget, Option.some.injEq] at h1
        subst h1
        exact absurd ht hnt
      · simp only [mapGet_mapSet_ne _ _ hk, h1]

theorem handleTyped_online (deviceType notFound : String) (ds : DeviceService)
    (event : DeviceCommandEvent) (now : Int) (nd : NodupKeys ds.devices) (k : String) :
    (mapGet (handleTyped deviceType notFound ds event now).devices k).map Device.Online =
      (mapGet ds.devices k).map Device.Online := by
  cases hf : findDevice ds.devices deviceType event.Location event.DeviceID with
  | none => rw [handleTyped_none now hf]
  | some x =>
    obtain ⟨key, device⟩ := x
    rw [handleTyped_some now hf]
    have hget : mapGet ds.devices key = some device :=
      mapGet_of_mem nd (findDevice_some hf).1
    by_cases hk : k = key
    · subst hk
      simp only [mapGet_mapSet_self _ hget, hget, Option.map_some']
      rw [(executeCommand_fields device event.Action).2.2.2.2]
    · simp only [mapGet_mapSet_ne _ _ hk]

theorem rangeFind_unique {deviceType location : String} {devices : Devices}
    {e : String × Device} (hmem : e ∈ devices) (hm : Matches deviceType location e)
    (huniq : ∀ e2 ∈ devices, Matches deviceType location e2 → e2 = e) :
    rangeFind deviceType location devices = some e := by
  cases h : rangeFind deviceType location devices with
  | none => exact absurd hm (rangeFind_eq_none.1 h e hmem)
  | some e2 =>
    obtain ⟨h1, h2⟩ := rangeFind_some h
    rw [huniq e2 h1 h2]

theorem devInv_nodupKeys {devices : Devices} (h : DevInv devices) : NodupKeys devices :=
  (h.1.nodup_iff).2 seededDevices_nodupKeys

theorem seeded_kitchen_unique : ∀ e2 ∈ seededDevices, Matches "lights" "kitchen" e2 →
    e2 = ("kitchen-lights",
      ⟨"kitchen-lights", "lights", "Kitchen Lights", "kitchen", "off", true⟩) := by
  decide

theorem seeded_kitchen_only_key : ∀ e2 ∈ seededDevices, e2.1 ≠ "kitchen-lights" →
    ¬ Matches "lights" "kitchen" e2 := by
  decide

/-! ## Theorems -/

/-- C1 (the code departs from the claim): on every iteration order of the seeded
registry, `findDevice "audio" "" "bedroom-lights"` does not answer "no device": the id
names a "lights" entry, the type test fails, control falls into the range loop, and the
loop returns the living-room audio device.  `handleAudioCommand` then plays on that
device and publishes success instead of "Audio device not found". -/
theorem findDevice_mismatched_id_falls_through (devices : Devices)
    (hp : devices.Perm seededDevices) (rid : String) (now : Int) :
    findDevice devices "audio" "" "bedroom-lights" =
        some ("living-room-audio",
          { ID := "living-room-audio", Type_ := "audio", Name := "Living Room Audio",
            Location := "living room", State := "off", Online := true }) ∧
      (handleAudioCommand ⟨[], devices⟩ ⟨rid, "audio", "bedroom-lights", "", "play"⟩
          now).natsService =
        [⟨rid, "audio", "living-room-audio", true, "Living Room Audio started playing",
          now⟩] := by
  have hget : mapGet devices "bedroom-lights" =
      some { ID := "bedroom-lights", Type_ := "lights", Name := "Bedroom Lights",
             Location := "bedroom", State := "off", Online := true } := by
    rw [mapGet_perm hp seededDevices_nodupKeys]
    decide
  have hfind : findDevice devices "audio" "" "bedroom-lights" =
      some ("living-room-audio",
        { ID := "living-room-audio", Type_ := "audio", Name := "Living Room Audio",
          Location := "living room", State := "off", Online := true }) := by
    have hfall : findDevice devices "audio" "" "bedroom-lights" =
        rangeFind "audio" "" devices := by
      simp [findDevice, hget]
    rw [hfall]
    cases hr : rangeFind "audio" "" devices with
    | none =>
      have hnone := rangeFind_eq_none.1 hr
      have hmem : (("living-room-audio",
          { ID := "living-room-audio", Type_ := "audio", Name := "Living Room Audio",
            Location := "living room", State := "off", Online := true }) :
            String × Device) ∈ devices :=
        hp.mem_iff.2 (by decide)
      exact absurd (by decide) (hnone _ hmem)
    | some e =>
      obtain ⟨hmem, hm, -⟩ := rangeFind_some hr
      have hs := hp.mem_iff.1 hmem
      simp only [seededDevices, List.mem_cons, List.mem_singleton, List.mem_nil_iff,
        or_false] at hs
      rcases hs with h | h | h | h
      · subst h; exact absurd hm (by decide)
      · subst h; exact absurd hm (by decide)
      · subst h; exact absurd hm (by decide)
      · subst h; rfl
  refine ⟨hfind, ?_⟩
  simp only [handleAudioCommand, hfind]
  simp [PublishDeviceResponse, executeCommand]

/-- Witness for C1's evaluation: the source order of the seeded registry. -/
theorem findDevice_mismatched_id_falls_through_witness :
    seededDevices.Perm seededDevices ∧
      findDevice seededDevices "audio" "" "bedroom-lights" =
        some ("living-room-audio",
          { ID := "living-room-audio", Type_ := "audio", Name := "Living Room Audio",
            Location := "living room", State := "off", Online := true }) ∧
      (handleAudioCommand ⟨[], seededDevices⟩ ⟨"r1", "audio", "bedroom-lights", "", "play"⟩
          0).natsService =
        [⟨"r1", "audio", "living-room-audio", true, "Living Room Audio started playing",
          0⟩] :=
  ⟨List.Perm.refl _,
    findDevice_mismatched_id_falls_through seededDevices (List.Perm.refl _) "r1" 0⟩

/-- C2: for every service state and every command event, `handleLightCommand` and
`handleAudioCommand` each publish exactly one response (the log grows by one entry, on
the not-found path and on the executed path alike), and its `RequestID` is the
event's. -/
theorem handlers_publish_one_correlated_response (ds : DeviceService)
    (event : DeviceCommandEvent) (now : Int) :
    (∃ response : DeviceResponseEvent,
        (handleLightCommand ds event now).natsService = ds.natsService ++ [response] ∧
        response.RequestID = event.RequestID) ∧
    (∃ response : DeviceResponseEvent,
        (handleAudioCommand ds event now).natsService = ds.natsService ++ [response] ∧
        response.RequestID = event.RequestID) := by
  constructor
  · unfold handleLightCommand
    cases findDevice ds.devices "lights" event.Location event.DeviceID with
    | none => exact ⟨_, rfl, rfl⟩
    | some e => exact ⟨_, rfl, rfl⟩
  · unfold handleAudioCommand
    cases findDevice ds.devices "audio" event.Location event.DeviceID with
    | none => exact ⟨_, rfl, rfl⟩
    | some e => exact ⟨_, rfl, rfl⟩

/-- C3: on an offline device every action fails with the message
"<Name> is offline" and leaves the device's `State` unchanged. -/
theorem executeCommand_offline (device : Device) (action : String)
    (hoff : device.Online = false) :
    (executeCommand device action).success = false ∧
      (executeCommand device action).message = device.Name ++ " is offline" ∧
      (executeCommand device action).device.State = device.State := by
  simp [executeCommand, hoff]

/-- Witness for C3: an offline lamp asked to turn on. -/
theorem executeCommand_offline_witness :
    (⟨"lamp", "lights", "Lamp", "hall", "off", false⟩ : Device).Online = false ∧
      (executeCommand ⟨"lamp", "lights", "Lamp", "hall", "off", false⟩ "on").success
        = false ∧
      (executeCommand ⟨"lamp", "lights", "Lamp", "hall", "off", false⟩ "on").message
        = "Lamp" ++ " is offline" ∧
      (executeCommand ⟨"lamp", "lights", "Lamp", "hall", "off", false⟩ "on").device.State
        = "off" :=
  ⟨rfl, executeCommand_offline ⟨"lamp", "lights", "Lamp", "hall", "off", false⟩ "on" rfl⟩

/-- C4: on an online device, for `a` one of "on" and "off", `executeCommand` succeeds
and leaves `State = a`; when the state was already `a` the message is
"<Name> is already <a>" and the device is unchanged, otherwise the message is
"<Name> turned <a>".  Applying `a` a second time gives the same device as applying it
once and reports success with the "already" message. -/
theorem executeCommand_on_off_idempotent (device : Device) (a : String)
    (hon : device.Online = true) (ha : a = "on" ∨ a = "off") :
    (executeCommand device a).success = true ∧
      (executeCommand device a).device.State = a ∧
      (device.State = a →
        (executeCommand device a).message = device.Name ++ " is already " ++ a ∧
        (executeCommand device a).device = device) ∧
      (device.State ≠ a →
        (executeCommand device a).message = device.Name ++ " turned " ++ a) ∧
      (executeCommand (executeCommand device a).device a).device =
        (executeCommand device a).device ∧
      (executeCommand (executeCommand device a).device a).success = true ∧
      (executeCommand (executeCommand device a).device a).message =
        device.Name ++ " is already " ++ a := by
  have e1 : (" is already " : String) ++ "on" = " is already on" := by decide
  have e2 : (" is already " : String) ++ "off" = " is already off" := by decide
  have e3 : (" turned " : String) ++ "on" = " turned on" := by decide
  have e4 : (" turned " : String) ++ "off" = " turned off" := by decide
  have hne : ("off" : String) ≠ "on" := by decide
  rcases ha with ha | ha
  · subst ha
    by_cases hs : device.State = "on"
    · simp [executeCommand, hon, hs, String.append_assoc, e1]
    · simp [executeCommand, hon, hs, String.append_assoc, e1, e3]
  · subst ha
    by_cases hs : device.State = "off"
    · simp [executeCommand, hon, hs, hne, String.append_assoc, e2]
    · simp [executeCommand, hon, hs, hne, String.append_assoc, e2, e4]

/-- Witness for C4: the seeded kitchen lights (state "off") turned on. -/
theorem executeCommand_on_off_idempotent_witness :
    (executeCommand ⟨"kitchen-lights", "lights", "Kitchen Lights", "kitchen", "off", true⟩
        "on").success = true ∧
      (executeCommand ⟨"kitchen-lights", "lights", "Kitchen Lights", "kitchen", "off", true⟩
        "on").device.State = "on" :=
  have h := executeCommand_on_off_idempotent
    ⟨"kitchen-lights", "lights", "Kitchen Lights", "kitchen", "off", true⟩ "on" rfl
    (Or.inl rfl)
  ⟨h.1, h.2.1⟩

/-- C5: on an online device of type "audio", whatever its previous state, "play",
"stop" and "pause" succeed and set `State` to "playing", "stopped" and "paused"
respectively. -/
theorem executeCommand_audio_transport (device : Device)
    (hon : device.Online = true) (haudio : device.Type_ = "audio") :
    ((executeCommand device "play").success = true ∧
        (executeCommand device "play").device.State = "playing") ∧
      ((executeCommand device "stop").success = true ∧
        (executeCommand device "stop").device.State = "stopped") ∧
      ((executeCommand device "pause").success = true ∧
        (executeCommand device "pause").device.State = "paused") := by
  refine ⟨?_, ?_, ?_⟩ <;> simp [executeCommand, hon, haudio]

/-- Witness for C5: the seeded living-room audio device. -/
theorem executeCommand_audio_transport_witness :
    (executeCommand
        ⟨"living-room-audio", "audio", "Living Room Audio", "living room", "off", true⟩
        "pause").device.State = "paused" :=
  (executeCommand_audio_transport
    ⟨"living-room-audio", "audio", "Living Room Audio", "living room", "off", true⟩
    rfl rfl).2.2.2

/-- C6: on a device whose type is not "audio", online or offline, each of "play",
"stop" and "pause" fails and leaves the device's `State` unchanged. -/
theorem executeCommand_non_audio_transport_fails (device : Device) (a : String)
    (hna : device.Type_ ≠ "audio") (ha : a = "play" ∨ a = "stop" ∨ a = "pause") :
    (executeCommand device a).success = false ∧
      (executeCommand device a).device.State = device.State := by
  cases hon : device.Online with
  | false => simp [executeCommand, hon]
  | true =>
    rcases ha with ha | ha | ha <;> subst ha <;> simp [executeCommand, hon, hna]

/-- Witness for C6: "play" on the seeded bedroom lights. -/
theorem executeCommand_non_audio_transport_fails_witness :
    (executeCommand ⟨"bedroom-lights", "lights", "Bedroom Lights", "bedroom", "off", true⟩
        "play").success = false ∧
      (executeCommand ⟨"bedroom-lights", "lights", "Bedroom Lights", "bedroom", "off", true⟩
        "play").device.State = "off" :=
  executeCommand_non_audio_transport_fails
    ⟨"bedroom-lights", "lights", "Bedroom Lights", "bedroom", "off", true⟩ "play"
    (by decide) (Or.inl rfl)

/-- C7 as stated fails: "stop" on the online seeded kitchen lights answers
"Cannot stop Kitchen Lights", not "Cannot stop on Kitchen Lights". -/
theorem executeCommand_cannot_message_counterexample :
    (⟨"kitchen-lights", "lights", "Kitchen Lights", "kitchen", "off", true⟩ :
        Device).Online = true ∧
      (⟨"kitchen-lights", "lights", "Kitchen Lights", "kitchen", "off", true⟩ :
        Device).Type_ ≠ "audio" ∧
      (executeCommand ⟨"kitchen-lights", "lights", "Kitchen Lights", "kitchen", "off", true⟩
        "stop").message = "Cannot stop Kitchen Lights" ∧
      (executeCommand ⟨"kitchen-lights", "lights", "Kitchen Lights", "kitchen", "off", true⟩
        "stop").message ≠ "Cannot " ++ "stop" ++ " on " ++ "Kitchen Lights" := by
  decide

/-- C7 (amended): on an online device whose type is not "audio" the message is
"Cannot play on <Name>" for "play", "Cannot stop <Name>" for "stop" and
"Cannot pause <Name>" for "pause": only "play" carries the word "on". -/
theorem executeCommand_cannot_message (device : Device)
    (hon : device.Online = true) (hna : device.Type_ ≠ "audio") :
    (executeCommand device "play").message = "Cannot play on " ++ device.Name ∧
      (executeCommand device "stop").message = "Cannot stop " ++ device.Name ∧
      (executeCommand device "pause").message = "Cannot pause " ++ device.Name := by
  refine ⟨?_, ?_, ?_⟩ <;> simp [executeCommand, hon, hna]

/-- Witness for C7 (amended): "pause" on the seeded kitchen lights. -/
theorem executeCommand_cannot_message_witness :
    (executeCommand ⟨"kitchen-lights", "lights", "Kitchen Lights", "kitchen", "off", true⟩
        "pause").message = "Cannot pause " ++ "Kitchen Lights" :=
  (executeCommand_cannot_message
    ⟨"kitchen-lights", "lights", "Kitchen Lights", "kitchen", "off", true⟩ rfl
    (by decide)).2.2

/-- C8: on an online device every action other than "on", "off", "play", "stop" and
"pause" fails with the message "Unknown action: <action>" and leaves the device
unchanged. -/
theorem executeCommand_unknown_action (device : Device) (action : String)
    (hon : device.Online = true)
    (h1 : action ≠ "on") (h2 : action ≠ "off") (h3 : action ≠ "play")
    (h4 : action ≠ "stop") (h5 : action ≠ "pause") :
    (executeCommand device action).success = false ∧
      (executeCommand device action).message = "Unknown action: " ++ action ∧
      (executeCommand device action).device = device := by
  simp [executeCommand, hon, h1, h2, h3, h4, h5]

/-- Witness for C8: action "dance" on the seeded kitchen lights gives
"Unknown action: dance". -/
theorem executeCommand_unknown_action_witness :
    (executeCommand ⟨"kitchen-lights", "lights", "Kitchen Lights", "kitchen", "off", true⟩
        "dance").success = false ∧
      (executeCommand ⟨"kitchen-lights", "lights", "Kitchen Lights", "kitchen", "off", true⟩
        "dance").message = "Unknown action: dance" ∧
      (executeCommand ⟨"kitchen-lights", "lights", "Kitchen Lights", "kitchen", "off", true⟩
        "dance").device =
        ⟨"kitchen-lights", "lights", "Kitchen Lights", "kitchen", "off", true⟩ :=
  executeCommand_unknown_action
    ⟨"kitchen-lights", "lights", "Kitchen Lights", "kitchen", "off", true⟩ "dance" rfl
    (by decide) (by decide) (by decide) (by decide) (by decide)

/-- C9: with an empty `deviceID`, a device returned by `findDevice` is an entry of the
registry whose type is `deviceType` and, when `location` is non-empty, whose location
is exactly `location`; and `findDevice` returns no device if and only if the registry
has no entry satisfying those constraints. -/
theorem findDevice_by_type_and_location (devices : Devices)
    (deviceType location : String) :
    (∀ e : String × Device, findDevice devices deviceType location "" = some e →
        e ∈ devices ∧ e.2.Type_ = deviceType ∧
          (location ≠ "" → e.2.Location = location)) ∧
      (findDevice devices deviceType location "" = none ↔
        ¬ ∃ e ∈ devices, e.2.Type_ = deviceType ∧
          (location ≠ "" → e.2.Location = location)) := by
  rw [findDevice_empty_id]
  constructor
  · intro e h
    obtain ⟨hmem, ht, hl⟩ := rangeFind_some h
    exact ⟨hmem, ht, hl⟩
  · rw [rangeFind_eq_none]
    constructor
    · rintro h ⟨e, he, hm⟩
      exact h e he hm
    · intro h e he hm
      exact h ⟨e, he, hm⟩

/-- C10 as stated fails: on the seeded registry the request ("lights", "", "") is
answered with the living-room lights when the range loop visits the entries in source
order and with the kitchen lights when it visits them in the reverse order. -/
theorem findDevice_order_dependent_counterexample :
    seededDevices.reverse.Perm seededDevices ∧
      (findDevice seededDevices "lights" "" "").map Prod.fst = some "living-room-lights" ∧
      (findDevice seededDevices.reverse "lights" "" "").map Prod.fst =
        some "kitchen-lights" ∧
      findDevice seededDevices.reverse "lights" "" "" ≠
        findDevice seededDevices "lights" "" "" :=
  ⟨List.reverse_perm _, by decide, by decide, by decide⟩

/-- C10 (amended): for a registry `r1` (distinct keys), any other iteration order `r2`
of it and a fixed request, (1) whether `findDevice` returns a device does not depend
on the order; (2) a returned device is always an entry of the registry of the requested
type, either the entry under the non-empty `deviceID` or one satisfying the type and
location constraints; (3) when at most one entry satisfies the type and location
constraints the result is the same on both orders; (4) when `deviceID` is non-empty and
names an entry of the requested type the result is the same on both orders. -/
theorem findDevice_order_independence (r1 r2 : Devices)
    (deviceType location deviceID : String)
    (nd : NodupKeys r1) (hp : r2.Perm r1) :
    (findDevice r2 deviceType location deviceID = none ↔
        findDevice r1 deviceType location deviceID = none) ∧
      (∀ e : String × Device, findDevice r2 deviceType location deviceID = some e →
        e ∈ r1 ∧ e.2.Type_ = deviceType ∧
          ((deviceID ≠ "" ∧ e.1 = deviceID) ∨ Matches deviceType location e)) ∧
      ((∀ e1 ∈ r1, ∀ e2 ∈ r1, Matches deviceType location e1 →
          Matches deviceType location e2 → e1 = e2) →
        findDevice r2 deviceType location deviceID =
          findDevice r1 deviceType location deviceID) ∧
      (deviceID ≠ "" →
        (∃ d : Device, mapGet r1 deviceID = some d ∧ d.Type_ = deviceType) →
        findDevice r2 deviceType location deviceID =
          findDevice r1 deviceType location deviceID) := by
  have hid := idHit_perm hp nd deviceType deviceID
  rw [findDevice_eq_idHit_orElse r2, findDevice_eq_idHit_orElse r1, hid]
  cases hh : idHit r1 deviceType deviceID with
  | some e0 =>
    obtain ⟨hne, hk, hg, ht⟩ := idHit_some hh
    refine ⟨by simp, ?_, fun _ => rfl, fun _ _ => rfl⟩
    intro e he
    simp only [Option.some.injEq] at he
    subst he
    refine ⟨?_, ht, Or.inl ⟨hne, hk⟩⟩
    have := mapGet_mem hg
    rw [← hk] at this
    exact this
  | none =>
    simp only
    refine ⟨rangeFind_none_perm hp deviceType location, ?_, ?_, ?_⟩
    · intro e he
      obtain ⟨hmem, hm⟩ := rangeFind_some he
      exact ⟨hp.mem_iff.1 hmem, hm.1, Or.inr hm⟩
    · intro huniq
      cases h1 : rangeFind deviceType location r1 with
      | none => exact (rangeFind_none_perm hp deviceType location).2 h1
      | some e1 =>
        cases h2 : rangeFind deviceType location r2 with
        | none =>
          have := (rangeFind_none_perm hp deviceType location).1 h2
          simp [h1] at this
        | some e2 =>
          obtain ⟨m1, p1⟩ := rangeFind_some h1
          obtain ⟨m2, p2⟩ := rangeFind_some h2
          rw [huniq e2 (hp.mem_iff.1 m2) e1 m1 p2 p1]
    · rintro hne ⟨d, hg, ht⟩
      simp [idHit, hne, hg, ht] at hh

/-- Witness for C10 (amended): the seeded registry, its reverse order, and the request
("lights", "kitchen", ""), which exactly one entry satisfies. -/
theorem findDevice_order_independence_witness :
    NodupKeys seededDevices ∧ seededDevices.reverse.Perm seededDevices ∧
      (findDevice seededDevices.reverse "lights" "kitchen" "" = none ↔
        findDevice seededDevices "lights" "kitchen" "" = none) ∧
      findDevice seededDevices.reverse "lights" "kitchen" "" =
        findDevice seededDevices "lights" "kitchen" "" :=
  have h := findDevice_order_independence seededDevices seededDevices.reverse
    "lights" "kitchen" "" seededDevices_nodupKeys (List.reverse_perm _)
  ⟨seededDevices_nodupKeys, List.reverse_perm _, h.1, h.2.2.1 (by decide)⟩

/-- C11: in every state reachable from the seeded service by handler invocations
(light, audio, generic; arbitrary events and iteration orders) the keys of the registry
are the seeded keys, every device has the `ID` and `Type` of the seeded entry under its
key, and its `State` is legal for its type: "on"/"off" for a non-audio device and
"on"/"off"/"playing"/"stopped"/"paused" for an audio device. -/
theorem reachable_registry_invariant (ds : DeviceService) (h : Reachable ds) :
    (ds.devices.map Prod.fst).Perm (seededDevices.map Prod.fst) ∧
      ∀ e ∈ ds.devices,
        (∃ d0 : Device, mapGet seededDevices e.1 = some d0 ∧ e.2.ID = d0.ID ∧
          e.2.Type_ = d0.Type_) ∧
        (e.2.Type_ ≠ "audio" → e.2.State ∈ ["on", "off"]) ∧
        (e.2.Type_ = "audio" →
          e.2.State ∈ ["on", "off", "playing", "stopped", "paused"]) := by
  obtain ⟨hkeys, hall⟩ := (reachable_inv h).1
  refine ⟨hkeys, ?_⟩
  intro e he
  obtain ⟨d0, hs, hid, ht, -, -, -, hst⟩ := hall e he
  refine ⟨⟨d0, mapGet_of_mem seededDevices_nodupKeys hs, hid, ht⟩, ?_, ?_⟩
  · intro hna
    simpa [legalStates, hna] using hst
  · intro ha
    simpa [legalStates, ha] using hst

/-- Witness for C11: the state after one kitchen-lights command. -/
theorem reachable_registry_invariant_witness :
    Reachable afterKitchenOn ∧
      (afterKitchenOn.devices.map Prod.fst).Perm (seededDevices.map Prod.fst) ∧
      ∀ e ∈ afterKitchenOn.devices,
        (∃ d0 : Device, mapGet seededDevices e.1 = some d0 ∧ e.2.ID = d0.ID ∧
          e.2.Type_ = d0.Type_) ∧
        (e.2.Type_ ≠ "audio" → e.2.State ∈ ["on", "off"]) ∧
        (e.2.Type_ = "audio" →
          e.2.State ∈ ["on", "off", "playing", "stopped", "paused"]) :=
  ⟨afterKitchenOn_reachable,
    reachable_registry_invariant afterKitchenOn afterKitchenOn_reachable⟩

/-- C12: when resolution fails, `handleLightCommand` publishes one response with
`Success = false`, `Message = "Light not found"` and the event's own `DeviceID`, and
`handleAudioCommand` one with `Success = false`, `Message = "Audio device not found"`
and the event's `DeviceID`; the registry is left as it was.  On every iteration order
of the seeded registry a lights request for location "garage" with action "on" is such
a failure. -/
theorem not_found_response (ds : DeviceService) (event : DeviceCommandEvent) (now : Int) :
    (findDevice ds.devices "lights" event.Location event.DeviceID = none →
      ∃ response : DeviceResponseEvent,
        (handleLightCommand ds event now).natsService = ds.natsService ++ [response] ∧
        response.Success = false ∧ response.Message = "Light not found" ∧
        response.DeviceID = event.DeviceID ∧
        (handleLightCommand ds event now).devices = ds.devices) ∧
    (findDevice ds.devices "audio" event.Location event.DeviceID = none →
      ∃ response : DeviceResponseEvent,
        (handleAudioCommand ds event now).natsService = ds.natsService ++ [response] ∧
        response.Success = false ∧ response.Message = "Audio device not found" ∧
        response.DeviceID = event.DeviceID ∧
        (handleAudioCommand ds event now).devices = ds.devices) ∧
    (∀ order : Devices, order.Perm seededDevices → ∀ rid dt : String,
      handleLightCommand ⟨ds.natsService, order⟩ ⟨rid, dt, "", "garage", "on"⟩ now =
        ⟨ds.natsService ++ [⟨rid, dt, "", false, "Light not found", now⟩], order⟩) := by
  refine ⟨?_, ?_, ?_⟩
  · intro h
    rw [handleLightCommand_eq, handleTyped_none now h]
    exact ⟨_, rfl, rfl, rfl, rfl, rfl⟩
  · intro h
    rw [handleAudioCommand_eq, handleTyped_none now h]
    exact ⟨_, rfl, rfl, rfl, rfl, rfl⟩
  · intro order hp rid dt
    have hnone : findDevice order "lights" "garage" "" = none := by
      rw [findDevice_empty_id, rangeFind_eq_none]
      intro e he
      exact seeded_no_garage_light e (hp.mem_iff.1 he)
    rw [handleLightCommand_eq]
    exact handleTyped_none now hnone

/-- C14: for every device and every action, `executeCommand` leaves `ID`, `Type`,
`Name`, `Location` and `Online` as they were; only `State` can differ. -/
theorem executeCommand_only_state (device : Device) (action : String) :
    (executeCommand device action).device.ID = device.ID ∧
      (executeCommand device action).device.Type_ = device.Type_ ∧
      (executeCommand device action).device.Name = device.Name ∧
      (executeCommand device action).device.Location = device.Location ∧
      (executeCommand device action).device.Online = device.Online ∧
      (executeCommand device action).device =
        { device with State := (executeCommand device action).device.State } := by
  unfold executeCommand
  split_ifs <;> simp

/-- C15: for every service state and every event, `handleGenericCommand` publishes no
response (the log is as before) and leaves the registry, hence every device, as it
was. -/
theorem handleGenericCommand_silent (ds : DeviceService) (event : DeviceCommandEvent) :
    (handleGenericCommand ds event).natsService = ds.natsService ∧
      (handleGenericCommand ds event).devices = ds.devices ∧
      ∀ key : String,
        mapGet (handleGenericCommand ds event).devices key = mapGet ds.devices key := by
  refine ⟨rfl, rfl, fun _ => rfl⟩

/-- C13: on the seeded service, whatever order `order1` the range loop visits the
registry in, `handleLightCommand` on an event with location "kitchen", empty device id
and action "on" publishes success, "Kitchen Lights turned on", device id
"kitchen-lights", and leaves kitchen-lights in state "on"; handling the same event again,
on any order `order2` of the resulting registry, publishes success,
"Kitchen Lights is already on", and the state is still "on". -/
theorem kitchen_on_twice (order1 : Devices) (hp1 : order1.Perm seededDevices)
    (rid dt : String) (now1 now2 : Int) (order2 : Devices)
    (hp2 : order2.Perm (handleLightCommand ⟨seededService.natsService, order1⟩
      ⟨rid, dt, "", "kitchen", "on"⟩ now1).devices) :
    (handleLightCommand ⟨seededService.natsService, order1⟩
        ⟨rid, dt, "", "kitchen", "on"⟩ now1).natsService =
      [⟨rid, "lights", "kitchen-lights", true, "Kitchen Lights turned on", now1⟩] ∧
    mapGet (handleLightCommand ⟨seededService.natsService, order1⟩
        ⟨rid, dt, "", "kitchen", "on"⟩ now1).devices "kitchen-lights" =
      some ⟨"kitchen-lights", "lights", "Kitchen Lights", "kitchen", "on", true⟩ ∧
    (handleLightCommand
        ⟨(handleLightCommand ⟨seededService.natsService, order1⟩
          ⟨rid, dt, "", "kitchen", "on"⟩ now1).natsService, order2⟩
        ⟨rid, dt, "", "kitchen", "on"⟩ now2).natsService =
      [⟨rid, "lights", "kitchen-lights", true, "Kitchen Lights turned on", now1⟩,
       ⟨rid, "lights", "kitchen-lights", true, "Kitchen Lights is already on", now2⟩] ∧
    mapGet (handleLightCommand
        ⟨(handleLightCommand ⟨seededService.natsService, order1⟩
          ⟨rid, dt, "", "kitchen", "on"⟩ now1).natsService, order2⟩
        ⟨rid, dt, "", "kitchen", "on"⟩ now2).devices "kitchen-lights" =
      some ⟨"kitchen-lights", "lights", "Kitchen Lights", "kitchen", "on", true⟩ := by
  have nd1 : NodupKeys order1 := nodupKeys_perm hp1 seededDevices_nodupKeys
  have hmem1 : (("kitchen-lights",
      ⟨"kitchen-lights", "lights", "Kitchen Lights", "kitchen", "off", true⟩) :
      String × Device) ∈ order1 := hp1.mem_iff.2 (by decide)
  have hget1 := mapGet_of_mem nd1 hmem1
  have hf1 : findDevice order1 "lights" "kitchen" "" =
      some ("kitchen-lights",
        ⟨"kitchen-lights", "lights", "Kitchen Lights", "kitchen", "off", true⟩) := by
    rw [findDevice_empty_id]
    exact rangeFind_unique hmem1 (by decide)
      (fun e2 he2 hm => seeded_kitchen_unique e2 (hp1.mem_iff.1 he2) hm)
  have hs1 : handleLightCommand ⟨seededService.natsService, order1⟩
      ⟨rid, dt, "", "kitchen", "on"⟩ now1 =
      ⟨[⟨rid, "lights", "kitchen-lights", true, "Kitchen Lights turned on", now1⟩],
        mapSet order1 "kitchen-lights"
          ⟨"kitchen-lights", "lights", "Kitchen Lights", "kitchen", "on", true⟩⟩ := by
    rw [handleLightCommand_eq, handleTyped_some now1 hf1]
    rfl
  rw [hs1] at hp2 ⊢
  have hnew1 := mapGet_mapSet_self
    ⟨"kitchen-lights", "lights", "Kitchen Lights", "kitchen", "on", true⟩ hget1
  have nd2 : NodupKeys order2 := by
    refine nodupKeys_perm hp2 ?_
    unfold NodupKeys
    rw [mapSet_keys]
    exact nd1
  have hmem2 : (("kitchen-lights",
      ⟨"kitchen-lights", "lights", "Kitchen Lights", "kitchen", "on", true⟩) :
      String × Device) ∈ order2 := hp2.mem_iff.2 (mapGet_mem hnew1)
  have hget2 := mapGet_of_mem nd2 hmem2
  have hf2 : findDevice order2 "lights" "kitchen" "" =
      some ("kitchen-lights",
        ⟨"kitchen-lights", "lights", "Kitchen Lights", "kitchen", "on", true⟩) := by
    rw [findDevice_empty_id]
    refine rangeFind_unique hmem2 (by decide) ?_
    intro e2 he2 hm
    rcases mem_mapSet (hp2.mem_iff.1 he2) with h | h
    · exact absurd hm (seeded_kitchen_only_key e2 (hp1.mem_iff.1 h.1) h.2)
    · exact h
  have hs2 : handleLightCommand
      ⟨[⟨rid, "lights", "kitchen-lights", true, "Kitchen Lights turned on", now1⟩], order2⟩
      ⟨rid, dt, "", "kitchen", "on"⟩ now2 =
      ⟨[⟨rid, "lights", "kitchen-lights", true, "Kitchen Lights turned on", now1⟩,
        ⟨rid, "lights", "kitchen-lights", true, "Kitchen Lights is already on", now2⟩],
        mapSet order2 "kitchen-lights"
          ⟨"kitchen-lights", "lights", "Kitchen Lights", "kitchen", "on", true⟩⟩ := by
    rw [handleLightCommand_eq, handleTyped_some now2 hf2]
    rfl
  rw [hs2]
  exact ⟨rfl, hnew1, rfl, mapGet_mapSet_self _ hget2⟩

/-- Witness for C13: both commands handled in source order. -/
theorem kitchen_on_twice_witness :
    (handleLightCommand
        ⟨(handleLightCommand ⟨seededService.natsService, seededDevices⟩
          ⟨"r1", "lights", "", "kitchen", "on"⟩ 1).natsService,
         (handleLightCommand ⟨seededService.natsService, seededDevices⟩
          ⟨"r1", "lights", "", "kitchen", "on"⟩ 1).devices⟩
        ⟨"r1", "lights", "", "kitchen", "on"⟩ 2).natsService =
      [⟨"r1", "lights", "kitchen-lights", true, "Kitchen Lights turned on", 1⟩,
       ⟨"r1", "lights", "kitchen-lights", true, "Kitchen Lights is already on", 2⟩] :=
  (kitchen_on_twice seededDevices (List.Perm.refl _) "r1" "lights" 1 2
    (handleLightCommand ⟨seededService.natsService, seededDevices⟩
      ⟨"r1", "lights", "", "kitchen", "on"⟩ 1).devices (List.Perm.refl _)).2.2.1

/-- C16: on a registry with distinct keys, `handleLightCommand` keeps every entry but
at most one (the one under a single key); an entry that it changes had and has type
"lights" and its `ID` is the `DeviceID` of the response just published; every entry
whose type is not "lights" is kept.  The same holds of `handleAudioCommand` with
"audio".  This is for every event, an explicit device id of another type included. -/
theorem handlers_change_only_own_type (ds : DeviceService) (event : DeviceCommandEvent)
    (now : Int) (nd : NodupKeys ds.devices) :
    ((∃ key : String, ∀ k : String, k ≠ key →
        mapGet (handleLightCommand ds event now).devices k = mapGet ds.devices k) ∧
      (∀ (k : String) (d d2 : Device), mapGet ds.devices k = some d →
        mapGet (handleLightCommand ds event now).devices k = some d2 → d2 ≠ d →
          d.Type_ = "lights" ∧ d2.Type_ = "lights" ∧
          ∃ response : DeviceResponseEvent,
            (handleLightCommand ds event now).natsService =
              ds.natsService ++ [response] ∧ response.DeviceID = d2.ID) ∧
      (∀ (k : String) (d : Device), mapGet ds.devices k = some d → d.Type_ ≠ "lights" →
        mapGet (handleLightCommand ds event now).devices k = some d)) ∧
    ((∃ key : String, ∀ k : String, k ≠ key →
        mapGet (handleAudioCommand ds event now).devices k = mapGet ds.devices k) ∧
      (∀ (k : String) (d d2 : Device), mapGet ds.devices k = some d →
        mapGet (handleAudioCommand ds event now).devices k = some d2 → d2 ≠ d →
          d.Type_ = "audio" ∧ d2.Type_ = "audio" ∧
          ∃ response : DeviceResponseEvent,
            (handleAudioCommand ds event now).natsService =
              ds.natsService ++ [response] ∧ response.DeviceID = d2.ID) ∧
      (∀ (k : String) (d : Device), mapGet ds.devices k = some d → d.Type_ ≠ "audio" →
        mapGet (handleAudioCommand ds event now).devices k = some d)) := by
  have hl := handleTyped_changesOnly "lights" "Light not found" ds event now nd
  have ha := handleTyped_changesOnly "audio" "Audio device not found" ds event now nd
  rw [← handleLightCommand_eq] at hl
  rw [← handleAudioCommand_eq] at ha
  exact ⟨hl.2, ha.2⟩

/-- Witness for C16: an audio command that names the bedroom lights by id, on the
seeded registry: the bedroom lights (and every other non-audio device) are kept. -/
theorem handlers_change_only_own_type_witness :
    NodupKeys seededDevices ∧
      mapGet (handleAudioCommand seededService
        ⟨"r1", "audio", "bedroom-lights", "", "play"⟩ 0).devices "bedroom-lights" =
        some ⟨"bedroom-lights", "lights", "Bedroom Lights", "bedroom", "off", true⟩ :=
  ⟨seededDevices_nodupKeys,
    (handlers_change_only_own_type seededService
      ⟨"r1", "audio", "bedroom-lights", "", "play"⟩ 0 seededDevices_nodupKeys).2.2.2
      "bedroom-lights" _ (by decide) (by decide)⟩

/-- C17: in every state reachable from the seeded service every device is online, no
handler invocation from such a state changes the `Online` flag under any key, and no
published response carries the message "<Name> is offline" for the name of a device
of the registry. -/
theorem reachable_always_online (ds : DeviceService) (h : Reachable ds) :
    (∀ e ∈ ds.devices, e.2.Online = true) ∧
      (∀ ds2 : DeviceService, Step ds ds2 → ∀ key : String,
        (mapGet ds2.devices key).map Device.Online =
          (mapGet ds.devices key).map Device.Online) ∧
      (∀ response ∈ ds.natsService, ∀ e ∈ ds.devices,
        response.Message ≠ e.2.Name ++ " is offline") := by
  obtain ⟨hd, hlog⟩ := reachable_inv h
  have nd : NodupKeys ds.devices := devInv_nodupKeys hd
  refine ⟨?_, ?_, ?_⟩
  · intro e he
    obtain ⟨d0, hs, -, -, -, -, ho, -⟩ := hd.2 e he
    exact ho.trans (seeded_online hs)
  · intro ds2 hs key
    cases hs with
    | light order hp event now =>
      rw [handleLightCommand_eq,
        handleTyped_online "lights" "Light not found" ⟨ds.natsService, order⟩ event now
          (nodupKeys_perm hp nd) key]
      exact congrArg _ (mapGet_perm hp nd key)
    | audio order hp event now =>
      rw [handleAudioCommand_eq,
        handleTyped_online "audio" "Audio device not found" ⟨ds.natsService, order⟩
          event now (nodupKeys_perm hp nd) key]
      exact congrArg _ (mapGet_perm hp nd key)
    | generic event => rfl
  · intro response hr e he
    obtain ⟨d0, hs, -, -, hn, -, -, -⟩ := hd.2 e he
    rw [hn]
    exact hlog response hr (e.1, d0) hs

/-- Witness for C17: the state after one kitchen-lights command. -/
theorem reachable_always_online_witness :
    Reachable afterKitchenOn ∧ (∀ e ∈ afterKitchenOn.devices, e.2.Online = true) ∧
      (∀ response ∈ afterKitchenOn.natsService, ∀ e ∈ afterKitchenOn.devices,
        response.Message ≠ e.2.Name ++ " is offline") :=
  have h := reachable_always_online afterKitchenOn afterKitchenOn_reachable
  ⟨afterKitchenOn_reachable, h.1, h.2.2⟩

/-- C18: when `deviceID` is non-empty and the registry (distinct keys) has an entry
under `deviceID` whose type is `deviceType`, `findDevice` returns exactly that entry
whatever `location` is, on the given order and on every other iteration order of the
registry. -/
theorem findDevice_by_id (devices : Devices) (deviceType location deviceID : String)
    (device : Device) (hid : deviceID ≠ "") (hget : mapGet devices deviceID = some device)
    (ht : device.Type_ = deviceType) (nd : NodupKeys devices) :
    findDevice devices deviceType location deviceID = some (deviceID, device) ∧
      ∀ order : Devices, order.Perm devices →
        findDevice order deviceType location deviceID = some (deviceID, device) := by
  have key : ∀ order : Devices, mapGet order deviceID = some device →
      findDevice order deviceType location deviceID = some (deviceID, device) := by
    intro order hg
    simp [findDevice, hid, hg, ht]
  refine ⟨key devices hget, ?_⟩
  intro order hp
  exact key order ((mapGet_perm hp nd deviceID).trans hget)

/-- Witness for C18: the kitchen lights named by id in a request whose location is
"garage", on the seeded registry and on its reverse order. -/
theorem findDevice_by_id_witness :
    findDevice seededDevices "lights" "garage" "kitchen-lights" =
        some ("kitchen-lights",
          ⟨"kitchen-lights", "lights", "Kitchen Lights", "kitchen", "off", true⟩) ∧
      findDevice seededDevices.reverse "lights" "garage" "kitchen-lights" =
        some ("kitchen-lights",
          ⟨"kitchen-lights", "lights", "Kitchen Lights", "kitchen", "off", true⟩) :=
  have h := findDevice_by_id seededDevices "lights" "garage" "kitchen-lights"
    ⟨"kitchen-lights", "lights", "Kitchen Lights", "kitchen", "off", true⟩
    (by decide) (by decide) rfl seededDevices_nodupKeys
  ⟨h.1, h.2 seededDevices.reverse (List.reverse_perm _)⟩

end LoqaDevice
